import Mathlib

/-!
Shallow embedding of `bcbio/cwl/hpc.py` (Cromwell HPC configuration setup)
from the bcbio-nextgen repository, together with proofs about its behaviour.

Python dicts of strings are modelled as association lists where assignment
conses the new binding on the front and lookup returns the most recent
binding, so "last write wins" exactly as for dict assignment.  Python
exceptions (`ValueError`, `KeyError`) are modelled with `Except PyError`.
Literal braces inside the embedded template strings are written with the
escapes \x7b and \x7d; the string values are identical to the Python ones.
-/

/-- Python exceptions raised by the embedded code: `ValueError msg` and
`KeyError key` (the latter raised by dict / `%`-formatting lookups). -/
inductive PyError where
  | valueError (msg : String)
  | keyError (key : String)
  deriving Repr, DecidableEq

/-- The fields of the argparse `args` namespace that `hpc.py` reads:
`scheduler` and `queue` are optional strings (absent → `none`),
`resources` is a list of strings and `no_container` a flag. -/
structure Args where
  scheduler : Option String
  queue : Option String
  resources : List String
  no_container : Bool
  deriving Repr, DecidableEq

/-- Python truthiness of an optional string: `None` and `""` are falsy. -/
def pyTruthy : Option String → Bool
  | none => false
  | some s => !(s == "")

/-- A Python `dict` of strings, as an association list: most recent
binding first. -/
abbrev Dict := List (String × String)

/-- Dict lookup: the most recent binding for the key. -/
def dget (d : Dict) (k : String) : Option String :=
  (d.find? (fun p => p.1 == k)).map (fun p => p.2)

/-- Dict assignment `d[k] = v`: the new binding shadows older ones. -/
def dset (d : Dict) (k v : String) : Dict := (k, v) :: d

/-- Python `d.update(u)`: insert every binding of `u` into `d` in order. -/
def dupdate (d u : Dict) : Dict := u.foldl (fun acc p => dset acc p.1 p.2) d

/-- `default_config` from `_args_to_cromwell`: the per-scheduler initial
configuration dictionaries, keyed by scheduler name (source order). -/
def default_config : List (String × Dict) :=
  [("slurm", [("timelimit", "1-00:00"), ("account", "")]),
   ("sge", [("memtype", "mem_type"), ("pename", "smp")]),
   ("lsf", []),
   ("torque", [("walltime", "1-00:00"), ("account", "")]),
   ("pbspro", [("walltime", "1-00:00"), ("account", ""),
               ("cpu_and_mem", "-l select=1:ncpus=$\x7bcpu\x7d:mem=$\x7bmemory_mb\x7dmb")])]

/-- `prefixes` from `_args_to_cromwell`: (key, scheduler) → flag prefix. -/
def prefixes : List ((String × String) × String) :=
  [(("account", "slurm"), "-A "), (("account", "pbspro"), "-A ")]

/-- `custom` from `_args_to_cromwell`: bare (key, scheduler) tokens that
stand for a fixed (key, value) substitution. -/
def custom : List ((String × String) × (String × String)) :=
  [(("noselect", "pbspro"),
    ("cpu_and_mem", "-l ncpus=$\x7bcpu\x7d -l mem=$\x7bmemory_mb\x7dmb"))]

/-- Python `str.split(sep)` for a one-character separator, on character
lists: split at every occurrence of `sep`, keeping empty pieces, and
return `[""]` on the empty string, exactly as in Python. -/
def splitChar (sep : Char) : List Char → List (List Char)
  | [] => [[]]
  | c :: rest =>
    let r := splitChar sep rest
    if c == sep then [] :: r
    else
      match r with
      | t :: ts => (c :: t) :: ts
      | [] => [[c]]

/-- Python `s.split(sep)` for a one-character separator. -/
def pySplit (s : String) (sep : Char) : List String :=
  (splitChar sep s.data).map String.mk

/-- Python `s.upper()` (the scheduler names are ASCII, where it agrees
with `Char.toUpper`). -/
def pyUpper (s : String) : String := String.mk (s.data.map Char.toUpper)

/-- Lookup in a (key, scheduler)-indexed table, as Python `table.get`. -/
def tableGet {α : Type} (t : List ((String × String) × α)) (k : String × String) :
    Option α :=
  (t.find? (fun p => p.1.1 == k.1 && p.1.2 == k.2)).map (fun p => p.2)

/-- The body of the inner loop of `_args_to_cromwell`: apply one
resource-override token `r` to `config` for scheduler `sched`.
`key=value` tokens set `config[key]` to the prefixed value; bare tokens
present in `custom` apply the fixed substitution; all others are ignored. -/
def applyToken (sched : String) (config : Dict) (r : String) : Dict :=
  match pySplit r '=' with
  | [key, val] => dset config key ((tableGet prefixes (key, sched)).getD "" ++ val)
  | [key] =>
    match tableGet custom (key, sched) with
    | some kv => dset config kv.1 kv.2
    | none => config
  | _ => config

/-- `_args_to_cromwell(args)`: convert input arguments into Cromwell
command-line arguments, configuration parameters and the scheduler name.
Raises `ValueError` for an unsupported scheduler or a missing queue. -/
def _args_to_cromwell (args : Args) :
    Except PyError (List String × Dict × Option String) :=
  let cl := ["-Dload-control.memory-threshold-in-mb=1"]
  if pyTruthy args.scheduler then
    let sched := args.scheduler.getD ""
    match default_config.find? (fun p => p.1 == sched) with
    | none =>
      .error (.valueError ("Scheduler not yet supported by Cromwell: " ++ sched))
    | some entry =>
      if !(pyTruthy args.queue) then
        .error (.valueError "Need to set queue (-q) for running with an HPC scheduler")
      else
        let cl := cl ++ ["-Dbackend.default=" ++ pyUpper sched]
        let config := dset entry.2 "queue" (args.queue.getD "")
        let config := args.resources.foldl
          (fun c rs => (pySplit rs ';').foldl (applyToken sched) c) config
        .ok (cl, config, some sched)
  else
    .ok (["-Dbackend.providers.Local.config.concurrent-job-limit=1"] ++ cl, [], none)

/-- `args_to_cromwell_cl(args)`: just the command-line argument list. -/
def args_to_cromwell_cl (args : Args) : Except PyError (List String) :=
  (_args_to_cromwell args).map (fun r => r.1)

/-- `docker_attrs` from `create_cromwell_config`. -/
def docker_attrs : List String := ["String? docker", "String? docker_user"]

/-- `cwl_attrs` from `create_cromwell_config`. -/
def cwl_attrs : List String :=
  ["Int? cpuMin", "Int? cpuMax", "Int? memoryMin", "Int? memoryMax", "String? outDirMin",
   "String? outDirMax", "String? tmpDirMin", "String? tmpDirMax"]

def FILESYSTEM_CONFIG : String :=
"
      filesystems \x7b
        local \x7b
          localization: [\"soft-link\"]
          caching \x7b
            duplication-strategy: [\"soft-link\"]
            hashing-strategy: \"path\"
          \x7d
        \x7d
      \x7d
"

def CROMWELL_CONFIG : String :=
"
include required(classpath(\"application\"))

system \x7b
  workflow-restart = true
\x7d
call-caching \x7b
  enabled = true
\x7d

database \x7b
  profile = \"slick.jdbc.HsqldbProfile$\"
  db \x7b
    driver = \"org.hsqldb.jdbcDriver\"
    url = \"jdbc:hsqldb:file:%(work_dir)s/persist/metadata;shutdown=false;hsqldb.tx=mvcc\"
    connectionTimeout = 20000
  \x7d
\x7d

backend \x7b
  providers \x7b
    Local \x7b
      config \x7b
        runtime-attributes = \"\"\"
        Int? cpu
        Int? memory_mb
        %(docker_attrs)s
        %(cwl_attrs)s
        \"\"\"
        %(submit_docker)s
        %(filesystem)s
      \x7d
    \x7d
%(hpc)s
  \x7d
\x7d
"

def HPC_CONFIGS : List (String × String) :=
  [("slurm",
"
    SLURM \x7b
      actor-factory = \"cromwell.backend.impl.sfs.config.ConfigBackendLifecycleActorFactory\"
      config \x7b
        runtime-attributes = \"\"\"
        Int cpu = 1
        Int memory_mb = 2048
        String queue = \"%(queue)s\"
        String timelimit = \"%(timelimit)s\"
        String account = \"%(account)s\"
        %(docker_attrs)s
        %(cwl_attrs)s
        \"\"\"
        submit = \"\"\"
            sbatch -J $\x7bjob_name\x7d -D $\x7bcwd\x7d -o $\x7bout\x7d -e $\x7berr\x7d -t $\x7btimelimit\x7d -p $\x7bqueue\x7d             $\x7b\"--cpus-per-task=\" + cpu\x7d --mem=$\x7bmemory_mb\x7d $\x7baccount\x7d             --wrap \"/usr/bin/env bash $\x7bscript\x7d\"
        \"\"\"
        kill = \"scancel $\x7bjob_id\x7d\"
        check-alive = \"squeue -j $\x7bjob_id\x7d\"
        job-id-regex = \"Submitted batch job (\\\\d+).*\"
        %(filesystem)s
      \x7d
    \x7d
"),
("sge",
"
    SGE \x7b
      actor-factory = \"cromwell.backend.impl.sfs.config.ConfigBackendLifecycleActorFactory\"
      config \x7b
        runtime-attributes = \"\"\"
        Int cpu = 1
        Int memory_mb = 2048
        String queue = \"%(queue)s\"
        String pename = \"%(pename\x7ds\"
        String memtype = \"%(memtype)s\"
        %(docker_attrs)s
        %(cwl_attrs)s
        \"\"\"
        submit = \"\"\"
        qsub -V -w w -j y -N $\x7bjob_name\x7d -wd $\x7bcwd\x7d         -o $\x7bout\x7d -e $\x7berr\x7d -q $\x7bqueue\x7d         -pe $\x7bpename\x7d $\x7bcpu\x7d $\x7b\"-l \" + mem_type + \"=\" + memory_mb + \"m\"\x7d         /usr/bin/env bash $\x7bscript\x7d
        \"\"\"
        kill = \"qdel $\x7bjob_id\x7d\"
        check-alive = \"qstat -j $\x7bjob_id\x7d\"
        job-id-regex = \"(\\\\d+)\"
        %(filesystem)s
      \x7d
    \x7d
"),
("pbspro",
"
    PBSPRO \x7b
      actor-factory = \"cromwell.backend.impl.sfs.config.ConfigBackendLifecycleActorFactory\"
      config \x7b
        runtime-attributes = \"\"\"
        Int cpu = 1
        Int memory_mb = 2048
        String queue = \"%(queue)s\"
        String account = \"%(account)s\"
        String walltime = \"%(walltime)s\"
        %(docker_attrs)s
        %(cwl_attrs)s
        \"\"\"
        submit = \"\"\"
        qsub -V -l wd -N $\x7bjob_name\x7d -o $\x7bout\x7d -e $\x7berr\x7d -q $\x7bqueue\x7d -l walltime=$\x7bwalltime\x7d         %(cpu_and_mem)s         -- /usr/bin/env bash $\x7bscript\x7d
        \"\"\"
        kill = \"qdel $\x7bjob_id\x7d\"
        check-alive = \"qstat -j $\x7bjob_id\x7d\"
        job-id-regex = \"(\\\\d+)\"
        %(filesystem)s
      \x7d
    \x7d

"),
("torque",
"
    TORQUE \x7b
      actor-factory = \"cromwell.backend.impl.sfs.config.ConfigBackendLifecycleActorFactory\"
      config \x7b
        runtime-attributes = \"\"\"
        Int cpu = 1
        Int memory_mb = 2048
        String queue = \"%(queue)s\"
        String account = \"%(account)s\"
        String walltime = \"%(walltime)s\"
        %(docker_attrs)s
        %(cwl_attrs)s
        \"\"\"
        submit = \"\"\"
        qsub -V -l wd -N $\x7bjob_name\x7d -o $\x7bout\x7d -e $\x7berr\x7d -q $\x7bqueue\x7d         -l nodes=1:ppn=$\x7bcpu\x7d -l mem=$\x7bmemory_mb\x7dmb -l walltime=$\x7bwalltime\x7d         -- /usr/bin/env bash $\x7bscript\x7d
        \"\"\"
        kill = \"qdel $\x7bjob_id\x7d\"
        check-alive = \"qstat -j $\x7bjob_id\x7d\"
        job-id-regex = \"(\\\\d+)\"
        %(filesystem)s
      \x7d
    \x7d
")]

/-- Scan a `%(...)` mapping key as CPython does: parentheses inside the
key are skipped in balanced pairs (`pcount` is the number of open parens
beyond the first), and the scan stops at the close paren that balances
the opening one, returning the key characters and the rest after it.
`none` when the string ends with the count still open, which CPython
reports as `ValueError("incomplete format key")`. -/
def scanKey (pcount : Nat) : List Char → Option (List Char × List Char)
  | [] => none
  | c :: rest =>
    if c == ')' then
      if pcount == 0 then some ([], rest)
      else (scanKey (pcount - 1) rest).map (fun p => (c :: p.1, p.2))
    else if c == '(' then
      (scanKey (pcount + 1) rest).map (fun p => (c :: p.1, p.2))
    else
      (scanKey pcount rest).map (fun p => (c :: p.1, p.2))

/-- Python percent-formatting `template % mapping` for the `%(key)s`
directives used by these templates: a missing mapping key raises
`KeyError`, a malformed directive raises `ValueError`.  Substituted values
are not rescanned, as in Python.  The fuel argument bounds the recursion;
each step consumes at least one template character, so fuel equal to the
template length is never exhausted. -/
def formatAux (d : Dict) : Nat → List Char → Except PyError (List Char)
  | _, [] => .ok []
  | 0, _ :: _ => .error (.valueError "incomplete format")
  | fuel + 1, '%' :: rest =>
    match rest with
    | '(' :: rest2 =>
      match scanKey 0 rest2 with
      | some (key, rest3) =>
        match rest3 with
        | 's' :: rest4 =>
          match dget d (String.mk key) with
          | some v => (formatAux d fuel rest4).map (fun t => v.data ++ t)
          | none => .error (.keyError (String.mk key))
        | _ => .error (.valueError "unsupported format character")
      | none => .error (.valueError "incomplete format key")
    | '%' :: rest2 => (formatAux d fuel rest2).map (fun t => '%' :: t)
    | _ => .error (.valueError "unsupported format character")
  | fuel + 1, c :: rest => (formatAux d fuel rest).map (fun t => c :: t)

/-- Python `template % mapping` on strings. -/
def pyFormat (template : String) (d : Dict) : Except PyError String :=
  (formatAux d template.data.length template.data).map String.mk

/-- `create_cromwell_config(args, work_dir)`: the configuration text the
function writes to `work_dir/bcbio-cromwell.conf`.  The file write aside,
this is the whole computation of the function. -/
def create_cromwell_config_text (args : Args) (work_dir : String) :
    Except PyError String := do
  let std_args : Dict :=
    [("docker_attrs",
      if args.no_container then "" else String.intercalate "\n        " docker_attrs),
     ("submit_docker", if args.no_container then "submit-docker: \"\"" else ""),
     ("cwl_attrs", String.intercalate "\n        " cwl_attrs),
     ("filesystem", FILESYSTEM_CONFIG)]
  let r ← _args_to_cromwell args
  let conf_args := dupdate r.2.1 std_args
  let scheduler := r.2.2
  let hpc ← if pyTruthy scheduler then
      match HPC_CONFIGS.find? (fun p => p.1 == scheduler.getD "") with
      | some entry => pyFormat entry.2 conf_args
      | none => Except.error (.keyError (scheduler.getD ""))
    else pure ""
  let main_config := dupdate [("hpc", hpc), ("work_dir", work_dir)] std_args
  pyFormat CROMWELL_CONFIG main_config

/-! ## Helper definitions and lemmas for the claims -/

/-- The scheduler names accepted by `_args_to_cromwell` (the keys of
`default_config`). -/
def supported_schedulers : List String := ["slurm", "sge", "lsf", "torque", "pbspro"]

/-- The configuration dictionary of a `_args_to_cromwell` result (the
empty dictionary when the call raised). -/
def configOf (r : Except PyError (List String × Dict × Option String)) : Dict :=
  match r with
  | .ok x => x.2.1
  | .error _ => []

lemma default_config_find_eq_none {s : String} (h : s ∉ supported_schedulers) :
    default_config.find? (fun p => p.1 == s) = none := by
  simp only [supported_schedulers, List.mem_cons, List.not_mem_nil, or_false, not_or] at h
  obtain ⟨h1, h2, h3, h4, h5⟩ := h
  have e1 : ("slurm" == s) = false := beq_eq_false_iff_ne.mpr fun e => h1 e.symm
  have e2 : ("sge" == s) = false := beq_eq_false_iff_ne.mpr fun e => h2 e.symm
  have e3 : ("lsf" == s) = false := beq_eq_false_iff_ne.mpr fun e => h3 e.symm
  have e4 : ("torque" == s) = false := beq_eq_false_iff_ne.mpr fun e => h4 e.symm
  have e5 : ("pbspro" == s) = false := beq_eq_false_iff_ne.mpr fun e => h5 e.symm
  simp [default_config, List.find?, e1, e2, e3, e4, e5]

lemma default_config_find_of_mem {s : String} (h : s ∈ supported_schedulers) :
    ∃ d, default_config.find? (fun p => p.1 == s) = some (s, d) := by
  simp only [supported_schedulers, List.mem_cons, List.not_mem_nil, or_false] at h
  rcases h with rfl | rfl | rfl | rfl | rfl <;> exact ⟨_, rfl⟩

/-- Shape of a successful `_args_to_cromwell` call: the fixed command
line, and the configuration obtained by folding the override tokens over
the scheduler defaults extended with the queue. -/
lemma args_to_cromwell_ok (s q : String) (res : List String) (nc : Bool) (d : Dict)
    (hd : default_config.find? (fun p => p.1 == s) = some (s, d))
    (hs : s ≠ "") (hq : q ≠ "") :
    _args_to_cromwell ⟨some s, some q, res, nc⟩ =
      .ok (["-Dload-control.memory-threshold-in-mb=1", "-Dbackend.default=" ++ pyUpper s],
           res.foldl (fun c rs => (pySplit rs ';').foldl (applyToken s) c) (dset d "queue" q),
           some s) := by
  simp [_args_to_cromwell, pyTruthy, beq_eq_false_iff_ne.mpr hs, beq_eq_false_iff_ne.mpr hq, hd]

/-! ## The claims -/

set_option maxRecDepth 100000

/-- Claim C1: the spec says that for scheduler "lsf" with a non-empty
queue the rendered configuration has an empty HPC block.  The code
instead raises: `_args_to_cromwell` accepts "lsf" as supported, but
`HPC_CONFIGS` has no "lsf" entry, so `create_cromwell_config` fails with
`KeyError("lsf")` when it looks up the per-scheduler template. -/
theorem lsf_render_raises_keyError :
    HPC_CONFIGS.find? (fun p => p.1 == "lsf") = none ∧
    (_args_to_cromwell ⟨some "lsf", some "default", [], false⟩).isOk = true ∧
    create_cromwell_config_text ⟨some "lsf", some "default", [], false⟩ "/work" =
      .error (.keyError "lsf") :=
  ⟨rfl, rfl, rfl⟩

/-- Claim C2: the spec says template filling never fails for a supported
scheduler with a non-empty queue.  For "sge" it does: the sge template
contains the malformed directive `%(pename}s` (brace instead of paren),
so the `%`-formatting key scan — which skips balanced parentheses —
consumes the remainder of the template, where every later paren pair is
balanced, reaches the end with the count still open and raises
`ValueError("incomplete format key")`, although `_args_to_cromwell`
itself succeeded. -/
theorem sge_render_raises_valueError :
    (_args_to_cromwell ⟨some "sge", some "default", [], false⟩).isOk = true ∧
    create_cromwell_config_text ⟨some "sge", some "default", [], false⟩ "/work" =
      .error (.valueError "incomplete format key") :=
  ⟨rfl, rfl⟩

/-- Claim C3: with a scheduler set, `_args_to_cromwell` raises
`ValueError` exactly for an unsupported scheduler or a missing queue,
succeeds for every supported scheduler with a non-empty queue, and the
two error messages are distinguishable. -/
theorem args_to_cromwell_error_cases (args : Args) (hs : pyTruthy args.scheduler = true) :
    (args.scheduler.getD "" ∉ supported_schedulers →
      _args_to_cromwell args =
        .error (.valueError
          ("Scheduler not yet supported by Cromwell: " ++ args.scheduler.getD ""))) ∧
    (args.scheduler.getD "" ∈ supported_schedulers → pyTruthy args.queue = false →
      _args_to_cromwell args =
        .error (.valueError "Need to set queue (-q) for running with an HPC scheduler")) ∧
    (args.scheduler.getD "" ∈ supported_schedulers → pyTruthy args.queue = true →
      (_args_to_cromwell args).isOk = true) ∧
    (∀ s : String,
      PyError.valueError ("Scheduler not yet supported by Cromwell: " ++ s) ≠
        PyError.valueError "Need to set queue (-q) for running with an HPC scheduler") := by
  refine ⟨?_, ?_, ?_, ?_⟩
  · intro hns
    simp [_args_to_cromwell, hs, default_config_find_eq_none hns]
  · intro hm hq
    obtain ⟨d, hd⟩ := default_config_find_of_mem hm
    simp [_args_to_cromwell, hs, hd, hq]
  · intro hm hq
    obtain ⟨d, hd⟩ := default_config_find_of_mem hm
    simp [_args_to_cromwell, hs, hd, hq, Except.isOk, Except.toBool]
  · intro s h
    obtain ⟨sd⟩ := s
    injection h with h'
    have h1 : ("Scheduler not yet supported by Cromwell: " ++ String.mk sd).data.head? =
        some 'N' := by
      rw [h']
      rfl
    have h2 : ("Scheduler not yet supported by Cromwell: " ++ String.mk sd).data.head? =
        some 'S' := rfl
    rw [h2] at h1
    simp at h1

/-- Witness for C3 at a concrete input. -/
theorem args_to_cromwell_error_cases_witness :
    pyTruthy (some "slurm") = true ∧
    ((("slurm" : String) ∉ supported_schedulers →
      _args_to_cromwell ⟨some "slurm", some "q", [], false⟩ =
        .error (.valueError ("Scheduler not yet supported by Cromwell: " ++ "slurm"))) ∧
     (("slurm" : String) ∈ supported_schedulers → pyTruthy (some "q") = false →
      _args_to_cromwell ⟨some "slurm", some "q", [], false⟩ =
        .error (.valueError "Need to set queue (-q) for running with an HPC scheduler")) ∧
     (("slurm" : String) ∈ supported_schedulers → pyTruthy (some "q") = true →
      (_args_to_cromwell ⟨some "slurm", some "q", [], false⟩).isOk = true) ∧
     (∀ s : String,
       PyError.valueError ("Scheduler not yet supported by Cromwell: " ++ s) ≠
         PyError.valueError "Need to set queue (-q) for running with an HPC scheduler")) :=
  ⟨rfl, args_to_cromwell_error_cases ⟨some "slurm", some "q", [], false⟩ rfl⟩

/-- Claim C4: override application is order-sensitive with last write
winning and the per-(key, scheduler) prefix applied: for slurm with
overrides ["account=A1", "account=A2"] the final account is "-A A2". -/
theorem override_last_write_wins (q : String) (hq : q ≠ "") (nc : Bool) :
    dget (configOf (_args_to_cromwell
        ⟨some "slurm", some q, ["account=A1", "account=A2"], nc⟩)) "account" =
      some "-A A2" := by
  rw [args_to_cromwell_ok "slurm" q _ nc _ rfl (by decide) hq]
  rfl

/-- Witness for C4. -/
theorem override_last_write_wins_witness :
    ("default" : String) ≠ "" ∧
    dget (configOf (_args_to_cromwell
        ⟨some "slurm", some "default", ["account=A1", "account=A2"], false⟩)) "account" =
      some "-A A2" :=
  ⟨by decide, override_last_write_wins "default" (by decide) false⟩

/-- Claim C5: a single override entry joined with ";" is split into
sub-tokens that are each applied: "account=X;timelimit=99:00" for slurm
sets both account (with prefix) and timelimit. -/
theorem semicolon_overrides_split (q : String) (hq : q ≠ "") (nc : Bool) :
    dget (configOf (_args_to_cromwell
        ⟨some "slurm", some q, ["account=X;timelimit=99:00"], nc⟩)) "account" =
      some "-A X" ∧
    dget (configOf (_args_to_cromwell
        ⟨some "slurm", some q, ["account=X;timelimit=99:00"], nc⟩)) "timelimit" =
      some "99:00" := by
  rw [args_to_cromwell_ok "slurm" q _ nc _ rfl (by decide) hq]
  exact ⟨rfl, rfl⟩

/-- Witness for C5. -/
theorem semicolon_overrides_split_witness :
    ("default" : String) ≠ "" ∧
    (dget (configOf (_args_to_cromwell
        ⟨some "slurm", some "default", ["account=X;timelimit=99:00"], false⟩)) "account" =
      some "-A X" ∧
     dget (configOf (_args_to_cromwell
        ⟨some "slurm", some "default", ["account=X;timelimit=99:00"], false⟩)) "timelimit" =
      some "99:00") :=
  ⟨by decide, semicolon_overrides_split "default" (by decide) false⟩

/-- Claim C6: the bare override token "noselect" for pbspro replaces the
pbspro default of `cpu_and_mem` with the fixed ncpus/mem literal, and a
bare token with no entry in the custom table leaves the configuration
unchanged. -/
theorem noselect_pbspro_override (q : String) (hq : q ≠ "") (nc : Bool) :
    dget (configOf (_args_to_cromwell ⟨some "pbspro", some q, [], nc⟩)) "cpu_and_mem" =
      some "-l select=1:ncpus=$\x7bcpu\x7d:mem=$\x7bmemory_mb\x7dmb" ∧
    dget (configOf (_args_to_cromwell
        ⟨some "pbspro", some q, ["noselect"], nc⟩)) "cpu_and_mem" =
      some "-l ncpus=$\x7bcpu\x7d -l mem=$\x7bmemory_mb\x7dmb" ∧
    (∀ (sched : String) (config : Dict) (r key : String),
      pySplit r '=' = [key] → tableGet custom (key, sched) = none →
      applyToken sched config r = config) := by
  refine ⟨?_, ?_, ?_⟩
  · rw [args_to_cromwell_ok "pbspro" q [] nc _ rfl (by decide) hq]
    rfl
  · rw [args_to_cromwell_ok "pbspro" q _ nc _ rfl (by decide) hq]
    rfl
  · intro sched config r key h1 h2
    simp [applyToken, h1, h2]

/-- Witness for C6. -/
theorem noselect_pbspro_override_witness :
    ("default" : String) ≠ "" ∧
    (dget (configOf (_args_to_cromwell
        ⟨some "pbspro", some "default", [], false⟩)) "cpu_and_mem" =
      some "-l select=1:ncpus=$\x7bcpu\x7d:mem=$\x7bmemory_mb\x7dmb" ∧
     dget (configOf (_args_to_cromwell
        ⟨some "pbspro", some "default", ["noselect"], false⟩)) "cpu_and_mem" =
      some "-l ncpus=$\x7bcpu\x7d -l mem=$\x7bmemory_mb\x7dmb" ∧
     (∀ (sched : String) (config : Dict) (r key : String),
       pySplit r '=' = [key] → tableGet custom (key, sched) = none →
       applyToken sched config r = config)) :=
  ⟨by decide, noselect_pbspro_override "default" (by decide) false⟩

/-- Claim C7: with no scheduler the command line is the local
concurrent-job-limit flag followed by the memory-threshold flag; with a
supported scheduler and non-empty queue it is exactly the
memory-threshold flag and `-Dbackend.default=<scheduler uppercased>`,
and the local concurrency flag does not occur. -/
theorem args_to_cromwell_cl_flags :
    (∀ (sch q : Option String) (res : List String) (nc : Bool),
      pyTruthy sch = false →
      args_to_cromwell_cl ⟨sch, q, res, nc⟩ =
        .ok ["-Dbackend.providers.Local.config.concurrent-job-limit=1",
             "-Dload-control.memory-threshold-in-mb=1"]) ∧
    (∀ (s q : String) (res : List String) (nc : Bool),
      s ∈ supported_schedulers → q ≠ "" →
      args_to_cromwell_cl ⟨some s, some q, res, nc⟩ =
        .ok ["-Dload-control.memory-threshold-in-mb=1", "-Dbackend.default=" ++ pyUpper s] ∧
      "-Dbackend.providers.Local.config.concurrent-job-limit=1" ∉
        ["-Dload-control.memory-threshold-in-mb=1", "-Dbackend.default=" ++ pyUpper s]) := by
  constructor
  · intro sch q res nc h
    simp [args_to_cromwell_cl, _args_to_cromwell, h, Except.map]
  · intro s q res nc hs hq
    simp only [supported_schedulers, List.mem_cons, List.not_mem_nil, or_false] at hs
    rcases hs with rfl | rfl | rfl | rfl | rfl
    · exact ⟨by simp [args_to_cromwell_cl,
        args_to_cromwell_ok "slurm" q res nc _ rfl (by decide) hq, Except.map], by decide⟩
    · exact ⟨by simp [args_to_cromwell_cl,
        args_to_cromwell_ok "sge" q res nc _ rfl (by decide) hq, Except.map], by decide⟩
    · exact ⟨by simp [args_to_cromwell_cl,
        args_to_cromwell_ok "lsf" q res nc _ rfl (by decide) hq, Except.map], by decide⟩
    · exact ⟨by simp [args_to_cromwell_cl,
        args_to_cromwell_ok "torque" q res nc _ rfl (by decide) hq, Except.map], by decide⟩
    · exact ⟨by simp [args_to_cromwell_cl,
        args_to_cromwell_ok "pbspro" q res nc _ rfl (by decide) hq, Except.map], by decide⟩

/-- Witness for C7. -/
theorem args_to_cromwell_cl_flags_witness :
    pyTruthy (none : Option String) = false ∧
    args_to_cromwell_cl ⟨none, none, [], false⟩ =
      .ok ["-Dbackend.providers.Local.config.concurrent-job-limit=1",
           "-Dload-control.memory-threshold-in-mb=1"] ∧
    ("slurm" : String) ∈ supported_schedulers ∧
    ("q" : String) ≠ "" ∧
    (args_to_cromwell_cl ⟨some "slurm", some "q", [], false⟩ =
      .ok ["-Dload-control.memory-threshold-in-mb=1",
           "-Dbackend.default=" ++ pyUpper "slurm"] ∧
     "-Dbackend.providers.Local.config.concurrent-job-limit=1" ∉
      ["-Dload-control.memory-threshold-in-mb=1", "-Dbackend.default=" ++ pyUpper "slurm"]) :=
  ⟨rfl, args_to_cromwell_cl_flags.1 none none [] false rfl, by decide, by decide,
   args_to_cromwell_cl_flags.2 "slurm" "q" [] false (by decide) (by decide)⟩

/-- Claim C8: for every supported scheduler and non-empty queue,
`_args_to_cromwell` succeeds and the configuration maps "queue" to
exactly the input queue string. -/
theorem queue_recorded_in_config (s q : String) (nc : Bool)
    (hs : s ∈ supported_schedulers) (hq : q ≠ "") :
    (_args_to_cromwell ⟨some s, some q, [], nc⟩).isOk = true ∧
    dget (configOf (_args_to_cromwell ⟨some s, some q, [], nc⟩)) "queue" = some q := by
  simp only [supported_schedulers, List.mem_cons, List.not_mem_nil, or_false] at hs
  rcases hs with rfl | rfl | rfl | rfl | rfl
  · rw [args_to_cromwell_ok "slurm" q [] nc _ rfl (by decide) hq]; exact ⟨rfl, rfl⟩
  · rw [args_to_cromwell_ok "sge" q [] nc _ rfl (by decide) hq]; exact ⟨rfl, rfl⟩
  · rw [args_to_cromwell_ok "lsf" q [] nc _ rfl (by decide) hq]; exact ⟨rfl, rfl⟩
  · rw [args_to_cromwell_ok "torque" q [] nc _ rfl (by decide) hq]; exact ⟨rfl, rfl⟩
  · rw [args_to_cromwell_ok "pbspro" q [] nc _ rfl (by decide) hq]; exact ⟨rfl, rfl⟩

/-- Witness for C8. -/
theorem queue_recorded_in_config_witness :
    ("torque" : String) ∈ supported_schedulers ∧
    ("myqueue" : String) ≠ "" ∧
    ((_args_to_cromwell ⟨some "torque", some "myqueue", [], false⟩).isOk = true ∧
     dget (configOf (_args_to_cromwell ⟨some "torque", some "myqueue", [], false⟩)) "queue" =
       some "myqueue") :=
  ⟨by decide, by decide,
   queue_recorded_in_config "torque" "myqueue" false (by decide) (by decide)⟩

/-- Claim C9: the configuration text and the command-line/config
computation are pure functions of the request fields and the work
directory: requests with identical fields give identical results, so two
calls with identical inputs produce byte-identical output text. -/
theorem render_deterministic (a b : Args) (w : String)
    (h1 : a.scheduler = b.scheduler) (h2 : a.queue = b.queue)
    (h3 : a.resources = b.resources) (h4 : a.no_container = b.no_container) :
    create_cromwell_config_text a w = create_cromwell_config_text b w ∧
    _args_to_cromwell a = _args_to_cromwell b := by
  obtain ⟨as, aq, ar, an⟩ := a
  obtain ⟨bs, bq, br, bn⟩ := b
  cases h1; cases h2; cases h3; cases h4
  exact ⟨rfl, rfl⟩

/-- Witness for C9. -/
theorem render_deterministic_witness :
    (Args.mk none none [] false).scheduler = (Args.mk none none [] false).scheduler ∧
    create_cromwell_config_text ⟨none, none, [], false⟩ "/work" =
      create_cromwell_config_text ⟨none, none, [], false⟩ "/work" ∧
    _args_to_cromwell ⟨none, none, [], false⟩ = _args_to_cromwell ⟨none, none, [], false⟩ :=
  ⟨rfl, render_deterministic ⟨none, none, [], false⟩ ⟨none, none, [], false⟩ "/work"
    rfl rfl rfl rfl⟩

/-- Claim C10: with no scheduler set, `_args_to_cromwell` returns the
empty configuration mapping (and the local command line) for every queue
and resource-override value: local mode never validates the queue and
overrides have no effect. -/
theorem local_mode_ignores_queue_and_resources (sch q : Option String)
    (res : List String) (nc : Bool) (h : pyTruthy sch = false) :
    _args_to_cromwell ⟨sch, q, res, nc⟩ =
      .ok (["-Dbackend.providers.Local.config.concurrent-job-limit=1",
            "-Dload-control.memory-threshold-in-mb=1"], [], none) := by
  simp [_args_to_cromwell, h]

/-- Witness for C10. -/
theorem local_mode_ignores_queue_and_resources_witness :
    pyTruthy (none : Option String) = false ∧
    _args_to_cromwell ⟨none, some "ignored", ["account=A1"], true⟩ =
      .ok (["-Dbackend.providers.Local.config.concurrent-job-limit=1",
            "-Dload-control.memory-threshold-in-mb=1"], [], none) :=
  ⟨rfl, local_mode_ignores_queue_and_resources none (some "ignored") ["account=A1"] true rfl⟩
